import Mathlib

/-!
Verification of the school-attendance backend (`src/index.js`).

The development shallowly embeds the data model and the operations of the
backend: the MySQL table schemas become list-based stores with the schema's
constraints checked on insert, the in-memory `timerManager` becomes an
explicit record of live timer handles, and each route handler or timer
callback becomes a pure state-passing function.  Dates are modelled as `Int`
day numbers (the JS code manipulates `YYYY-MM-DD` strings and `Date`
arithmetic one day at a time); the current date and time-of-day are passed
in as parameters, since the clock is external to the program.  Payload-only
columns that no control flow ever reads (parent contact details, class
label, created_at) are omitted.
-/

/-- `status ENUM('present', 'absent')` of the attendance table. -/
inductive Status where
  | present
  | absent
deriving DecidableEq, Repr

/-- A row of the `students` table: `id` (primary key), `name`,
`card_id` (unique). -/
structure Student where
  id : Nat
  name : String
  cardId : Nat
deriving DecidableEq, Repr

/-- A row of the `attendance` table: `id` (primary key), `student_id`
(foreign key to students), denormalised `student_name` and `card_id`,
`date`, `timestamp`, `status`, `auto_marked`.  Note: the schema declares
`INDEX idx_student_date (student_id, date)`, a plain non-unique index, so
`(student_id, date)` carries no uniqueness constraint at the store level. -/
structure AttendanceMark where
  id : Nat
  studentId : Nat
  studentName : String
  cardId : Nat
  date : Int
  timestamp : Nat
  status : Status
  autoMarked : Bool
deriving DecidableEq, Repr

/-- A row of the `notifications` table: `id` (primary key), `student_id`
(foreign key), `student_name`, `type`, `message`,
`consecutive_absent_days`, and status (`pending = true` until sent). -/
structure Notification where
  id : Nat
  studentId : Nat
  studentName : String
  kind : String
  message : String
  consecutiveAbsentDays : Nat
  pending : Bool
deriving DecidableEq, Repr

/-- The persistent store: the three tables the core logic touches. -/
structure Store where
  students : List Student
  attendance : List AttendanceMark
  notifications : List Notification
deriving DecidableEq, Repr

/-- `INSERT INTO attendance ...` as constrained by the schema: it fails on a
duplicate primary key `id` or on a `student_id` violating the foreign key,
and otherwise appends the row.  `idx_student_date` is a non-unique index,
so no `(student_id, date)` check happens here. -/
def attendanceInsert (db : Store) (r : AttendanceMark) : Except String Store :=
  if db.attendance.any (fun x => x.id == r.id) then
    Except.error "Duplicate entry for key PRIMARY"
  else if !(db.students.any (fun s => s.id == r.studentId)) then
    Except.error "foreign key constraint fails"
  else
    Except.ok { db with attendance := db.attendance ++ [r] }

/-- `INSERT INTO notifications ...` as constrained by the schema (primary
key `id`, foreign key `student_id`). -/
def notificationInsert (db : Store) (n : Notification) : Except String Store :=
  if db.notifications.any (fun x => x.id == n.id) then
    Except.error "Duplicate entry for key PRIMARY"
  else if !(db.students.any (fun s => s.id == n.studentId)) then
    Except.error "foreign key constraint fails"
  else
    Except.ok { db with notifications := db.notifications ++ [n] }

/-!
## The consecutive-absence evaluator (`timerManager.checkConsecutiveAbsences`)

The SQL query selects this student's marks with
`date >= DATE_SUB(CURDATE(), INTERVAL 5 DAY)` ordered by date descending;
the loop then walks 5 days backward from today, counting a day as absent
when its record is `absent` or missing and breaking at a `present` record.
-/

/-- Insertion step for `ORDER BY date DESC`. -/
def insertByDateDesc (m : AttendanceMark) : List AttendanceMark → List AttendanceMark
  | [] => [m]
  | r :: rs => if r.date ≤ m.date then m :: r :: rs else r :: insertByDateDesc m rs

/-- `ORDER BY date DESC` on a list of attendance rows. -/
def sortByDateDesc : List AttendanceMark → List AttendanceMark
  | [] => []
  | r :: rs => insertByDateDesc r (sortByDateDesc rs)

/-- The rows returned by the evaluator's query: this student's marks within
the trailing 6-day window (`date >= today - 5`), ordered by date
descending. -/
def queryWindow (db : Store) (sid : Nat) (today : Int) : List AttendanceMark :=
  sortByDateDesc (db.attendance.filter
    (fun r => r.studentId == sid && decide (today - 5 ≤ r.date)))

/-- The evaluator's `for (let i = 0; i < 5; i++)` loop: `fuel` iterations
remain, `d` is `currentDate`, `acc` is `consecutiveAbsences`.  Each day the
first row with that date is looked up; an `absent` row or no row counts the
day and the walk continues, a `present` row breaks. -/
def streakLoop (rows : List AttendanceMark) : Int → Nat → Nat → Nat
  | _, 0, acc => acc
  | d, Nat.succ fuel, acc =>
    match rows.find? (fun r => r.date == d) with
    | some r =>
      if r.status = Status.absent then streakLoop rows (d - 1) fuel (acc + 1)
      else acc
    | none => streakLoop rows (d - 1) fuel (acc + 1)

/-- `timerManager.checkConsecutiveAbsences(studentId)`, with the clock's
`CURDATE()` passed in as `today`.  A pure read-and-compute query: it takes
the store and returns only a count. -/
def checkConsecutiveAbsences (db : Store) (sid : Nat) (today : Int) : Nat :=
  streakLoop (queryWindow db sid today) today 5 0

/-- The spec's wording of the evaluator, for comparison with
`checkConsecutiveAbsences`: walk backward from `asOfDate` one day at a time
for at most 5 days, counting each day that is not covered by a `present`
mark (an explicit `absent` mark or no mark at all), and stopping at the
first day that has a `present` mark. -/
def specStreakWalk (db : Store) (sid : Nat) : Int → Nat → Nat
  | _, 0 => 0
  | d, Nat.succ n =>
    if db.attendance.any
        (fun r => r.studentId == sid && r.date == d && r.status == Status.present) then 0
    else 1 + specStreakWalk db sid (d - 1) n

/-- The spec's `streak(personId, asOfDate)` over the fixed 5-day window. -/
def specStreak (db : Store) (sid : Nat) (asOf : Int) : Nat :=
  specStreakWalk db sid asOf 5

/-!
## The in-memory timer manager (`timerManager`)

`timers` is the `Map` of student id to live timer handle, in insertion
order as a JS `Map` iterates.  Handles are drawn from a counter
`nextHandle`; `cancelled` records every handle on which `clearTimeout` has
been called.  `dayTimer` is the singleton day-cycle handle.
-/

structure TimerManager where
  timers : List (Nat × Nat)
  dayTimer : Option Nat
  nextHandle : Nat
  cancelled : List Nat
deriving DecidableEq, Repr

/-- `Map.set`: replace the value in place when the key is present,
otherwise append the new entry. -/
def setEntry : List (Nat × Nat) → Nat → Nat → List (Nat × Nat)
  | [], k, v => [(k, v)]
  | e :: es, k, v => if e.1 == k then (k, v) :: es else e :: setEntry es k v

/-- `this.timers.delete(studentId)` — a plain `Map.delete`, with no
`clearTimeout` (the expiry callback removes its own already-fired
handle this way). -/
def timersDelete (m : TimerManager) (sid : Nat) : TimerManager :=
  { m with timers := m.timers.filter (fun e => e.1 != sid) }

/-- The synchronous part of `timerManager.startAbsenceTimer(student)`:
`clearTimeout` on any existing timer for this student, then register a
fresh handle under the student's id. -/
def startAbsenceTimer (m : TimerManager) (s : Student) : TimerManager :=
  let m1 :=
    match m.timers.find? (fun e => e.1 == s.id) with
    | some e => { m with cancelled := m.cancelled ++ [e.2] }
    | none => m
  { m1 with
      timers := setEntry m1.timers s.id m1.nextHandle,
      nextHandle := m1.nextHandle + 1 }

/-- `timerManager.clearStudentTimer(studentId)`: `clearTimeout` plus
`Map.delete` when a timer is present, no-op otherwise. -/
def clearStudentTimer (m : TimerManager) (sid : Nat) : TimerManager :=
  match m.timers.find? (fun e => e.1 == sid) with
  | some e =>
      { m with
          cancelled := m.cancelled ++ [e.2],
          timers := m.timers.filter (fun x => x.1 != sid) }
  | none => m

/-- `timerManager.clearAllTimers()`: `clearTimeout` every per-student
handle, clear the map, and cancel the day timer if set. -/
def clearAllTimers (m : TimerManager) : TimerManager :=
  let m1 : TimerManager :=
    { m with cancelled := m.cancelled ++ m.timers.map Prod.snd, timers := [] }
  match m1.dayTimer with
  | some h => { m1 with cancelled := m1.cancelled ++ [h], dayTimer := none }
  | none => m1

/-- `timerManager.getActiveTimersCount()`. -/
def getActiveTimersCount (m : TimerManager) : Nat :=
  m.timers.length

/-- `timerManager.startNewDay()`: clear all timers, load the roster, start
one absence timer per student, then arm the singleton day timer. -/
def startNewDay (db : Store) (m : TimerManager) : TimerManager :=
  let m1 := clearAllTimers m
  let m2 := db.students.foldl startAbsenceTimer m1
  { m2 with dayTimer := some m2.nextHandle, nextHandle := m2.nextHandle + 1 }

/-!
## The absence-timer expiry callback

The body of the `setTimeout` callback inside `startAbsenceTimer`
(src/index.js lines 196-232).  Each of its four store operations may fail;
`ExpiryErrs` says which ones throw.  A thrown error is caught by the
callback's `catch`, which only logs — so every store write already
performed persists, and the trailing `this.timers.delete(student.id)`
(which sits inside the `try`) is skipped.  The returned `Bool` records
whether the body threw.
-/

structure ExpiryErrs where
  eCheck : Bool
  eInsert : Bool
  eStreak : Bool
  eNotif : Bool
deriving DecidableEq, Repr

/-- The no-failure oracle: every store operation succeeds. -/
def noErrs : ExpiryErrs := ⟨false, false, false, false⟩

/-- The auto-marked absent row the expiry callback inserts. -/
def absentMark (markId : Nat) (s : Student) (today : Int) (time : Nat) : AttendanceMark :=
  ⟨markId, s.id, s.name, s.cardId, today, time, Status.absent, true⟩

/-- The notification row the expiry callback inserts for a streak of `k`
consecutive absences. -/
def consecutiveAbsenceNotification (nid : Nat) (s : Student) (k : Nat) : Notification :=
  ⟨nid, s.id, s.name, "consecutive_absence",
    "Alert: Your child " ++ s.name ++ " has been absent for " ++ toString k ++
      " consecutive days.", k, true⟩

/-- The expiry callback for `s`'s absence timer: check for an existing mark
for `(s.id, today)`; if none, insert an auto-marked absent mark, compute
the consecutive-absence streak, and insert a pending notification when the
streak is at least 3; finally `Map.delete` the student's timer entry.  Any
throwing step aborts the rest of the body (the `catch` only logs). -/
def absenceTimerExpiry (errs : ExpiryErrs) (s : Student) (today : Int) (time : Nat)
    (markId notifId : Nat) (db : Store) (m : TimerManager) :
    Store × TimerManager × Bool :=
  if errs.eCheck then (db, m, true)
  else if db.attendance.any (fun r => r.studentId == s.id && r.date == today) then
    (db, timersDelete m s.id, false)
  else if errs.eInsert then (db, m, true)
  else
    match attendanceInsert db (absentMark markId s today time) with
    | Except.error _ => (db, m, true)
    | Except.ok db1 =>
      if errs.eStreak then (db1, m, true)
      else if 3 ≤ checkConsecutiveAbsences db1 s.id today then
        if errs.eNotif then (db1, m, true)
        else
          match notificationInsert db1
              (consecutiveAbsenceNotification notifId s
                (checkConsecutiveAbsences db1 s.id today)) with
          | Except.error _ => (db1, m, true)
          | Except.ok db2 => (db2, timersDelete m s.id, false)
      else (db1, timersDelete m s.id, false)

/-!
## Route handlers
-/

/-- Outcome of `POST /api/attendance/record`. -/
inductive RecordResult where
  | notFound
  | alreadyMarked (name : String)
  | recorded (s : Student)
  | storeError
deriving DecidableEq, Repr

/-- `POST /api/attendance/record` (the check-in): look the student up by
card id, reject when a mark for `(student.id, today)` already exists,
otherwise insert a present, not-auto-marked mark, cancel the student's
absence timer, and run the (read-only) consecutive-absence query. -/
def recordAttendance (db : Store) (m : TimerManager) (cardId : Nat) (today : Int)
    (markId time : Nat) : RecordResult × Store × TimerManager :=
  match db.students.find? (fun s => s.cardId == cardId) with
  | none => (RecordResult.notFound, db, m)
  | some student =>
    if db.attendance.any (fun r => r.studentId == student.id && r.date == today) then
      (RecordResult.alreadyMarked student.name, db, m)
    else
      match attendanceInsert db
          ⟨markId, student.id, student.name, student.cardId, today, time,
            Status.present, false⟩ with
      | Except.error _ => (RecordResult.storeError, db, m)
      | Except.ok db1 =>
        let m1 := clearStudentTimer m student.id
        let _ := checkConsecutiveAbsences db1 student.id today
        (RecordResult.recorded student, db1, m1)

/-- Outcome of `DELETE /api/students/:id`. -/
inductive DeleteResult where
  | notFound
  | deleted
deriving DecidableEq, Repr

/-- `DELETE /api/students/:id`: delete the student row (404 when
`affectedRows` is 0); the schema's `ON DELETE CASCADE` removes the
student's attendance and notifications; then cancel the student's
timer. -/
def deleteStudent (db : Store) (m : TimerManager) (sid : Nat) :
    DeleteResult × Store × TimerManager :=
  if !(db.students.any (fun s => s.id == sid)) then (DeleteResult.notFound, db, m)
  else
    let db1 : Store :=
      { students := db.students.filter (fun s => s.id != sid),
        attendance := db.attendance.filter (fun r => r.studentId != sid),
        notifications := db.notifications.filter (fun n => n.studentId != sid) }
    (DeleteResult.deleted, db1, clearStudentTimer m sid)

/-!
## Daily-report generation (`POST /api/reports/generate`)
-/

/-- A row of the `daily_reports` table. -/
structure DailyReport where
  id : Nat
  date : Int
  dayNumber : Nat
  totalStudents : Nat
  presentCount : Nat
  absentCount : Nat
  attendanceRate : Int
deriving DecidableEq, Repr

/-- JavaScript `Math.round` on an exact rational: round half up. -/
def mathRound (q : ℚ) : ℤ := Int.floor (q + 1 / 2)

/-- Outcome of `POST /api/reports/generate`. -/
inductive ReportResult where
  | alreadyExists
  | generated (r : DailyReport)
deriving DecidableEq, Repr

/-- `POST /api/reports/generate`: refuse when a report for today exists;
otherwise count today's present and absent marks and the roster size,
compute `attendance_rate` as `Math.round(present / total * 100)` guarded
by `total > 0` (0 when the roster is empty), set `day_number` to one past
the largest existing day number (1 when there is none), and insert the
report. -/
def generateReport (db : Store) (reports : List DailyReport) (today : Int)
    (rid : Nat) : ReportResult × List DailyReport :=
  if reports.any (fun r => r.date == today) then (ReportResult.alreadyExists, reports)
  else
    let presentCount :=
      (db.attendance.filter
        (fun a => a.date == today && a.status == Status.present)).length
    let absentCount :=
      (db.attendance.filter
        (fun a => a.date == today && a.status == Status.absent)).length
    let total := db.students.length
    let rate : Int :=
      if 0 < total then mathRound ((presentCount : ℚ) / (total : ℚ) * 100) else 0
    let dayNumber := (reports.foldl (fun acc r => max acc r.dayNumber) 0) + 1
    let rep : DailyReport := ⟨rid, today, dayNumber, total, presentCount, absentCount, rate⟩
    (ReportResult.generated rep, reports ++ [rep])

/-!
## Concrete fixtures
-/

def c1Student : Student := ⟨10, "A", 1⟩

def c1Mark1 : AttendanceMark := ⟨1, 10, "A", 1, 0, 540, Status.present, false⟩

def c1Mark2 : AttendanceMark := ⟨2, 10, "A", 1, 0, 600, Status.absent, true⟩

def c1Db : Store := ⟨[c1Student], [c1Mark1], []⟩

def c1Db2 : Store := ⟨[c1Student], [c1Mark1, c1Mark2], []⟩

def evP : Student := ⟨10, "P", 1⟩

def evAbs (i : Nat) (d : Int) : AttendanceMark := ⟨i, 10, "P", 1, d, 0, Status.absent, true⟩

def evDbA : Store := ⟨[evP], [evAbs 1 (-1), evAbs 2 (-2), evAbs 3 (-3)], []⟩

def evDbB : Store :=
  ⟨[evP], [evAbs 1 (-1), ⟨2, 10, "P", 1, -2, 0, Status.present, false⟩, evAbs 3 (-3)], []⟩

def c2Student : Student := ⟨10, "B", 2⟩

def c2Mgr : TimerManager := ⟨[(10, 3)], some 4, 5, []⟩

def c2Db : Store := ⟨[c2Student], [], []⟩

def c2ErrCheck : ExpiryErrs := ⟨true, false, false, false⟩

/-!
## Helper lemmas
-/

/-- The evaluator's loop adds at most one to the accumulator per remaining
iteration. -/
theorem streakLoop_le (rows : List AttendanceMark) :
    ∀ (fuel : Nat) (d : Int) (acc : Nat), streakLoop rows d fuel acc ≤ acc + fuel := by
  intro fuel
  induction fuel with
  | zero => intro d acc; simp [streakLoop]
  | succ n ih =>
    intro d acc
    unfold streakLoop
    cases h : rows.find? (fun r => r.date == d) with
    | none =>
      calc streakLoop rows (d - 1) n (acc + 1) ≤ acc + 1 + n := ih (d - 1) (acc + 1)
        _ = acc + (n + 1) := by omega
    | some r =>
      by_cases hs : r.status = Status.absent
      · simp only [hs, if_pos rfl]
        calc streakLoop rows (d - 1) n (acc + 1) ≤ acc + 1 + n := ih (d - 1) (acc + 1)
          _ = acc + (n + 1) := by omega
      · simp only [if_neg hs]
        omega

/-!
## Claims
-/

/-- C1: the claim says the store itself rejects a second `AttendanceMark`
for the same `(personId, date)` with `AlreadyExists`.  The attendance
schema has only the non-unique `INDEX idx_student_date (student_id, date)`,
so the store accepts a second same-day mark with a fresh primary key: after
inserting `c1Mark2` over the existing `c1Mark1` (same student 10, same
date 0), the store holds two marks for `(10, 0)`. -/
theorem attendance_store_accepts_second_mark_same_day :
    attendanceInsert c1Db c1Mark2 = Except.ok c1Db2 ∧
      (c1Db2.attendance.filter (fun r => r.studentId == 10 && r.date == 0)).length = 2 :=
  ⟨rfl, by decide⟩

/-- C2 counterexample: with the expiry body's first store operation
throwing (`eCheck`), the body threw and the student's entry `(10, 3)` is
still in the live timer map — the slot was not cleared, contradicting the
claim that the slot is cleared regardless of failure. -/
theorem expiry_error_leaves_timer_entry :
    (absenceTimerExpiry c2ErrCheck c2Student 0 0 7 8 c2Db c2Mgr).2.2 = true ∧
      (10, 3) ∈ (absenceTimerExpiry c2ErrCheck c2Student 0 0 7 8 c2Db c2Mgr).2.1.timers := by
  decide

/-- C2 (amended): when any store operation inside the expiry body throws,
the error is only logged and the timer map is left untouched — the
student's entry is NOT removed; the entry is deleted from the live set
exactly when the body runs to completion without an error. -/
theorem absenceTimerExpiry_timer_slot (errs : ExpiryErrs) (s : Student) (today : Int)
    (time markId notifId : Nat) (db : Store) (m : TimerManager) :
    ((absenceTimerExpiry errs s today time markId notifId db m).2.2 = true →
      (absenceTimerExpiry errs s today time markId notifId db m).2.1 = m) ∧
    ((absenceTimerExpiry errs s today time markId notifId db m).2.2 = false →
      (absenceTimerExpiry errs s today time markId notifId db m).2.1 =
        timersDelete m s.id) := by
  unfold absenceTimerExpiry
  repeat' split <;> first
  | (constructor <;> intro h <;> simp_all)
  | simp_all

/-- C2 witness: the amended theorem applied at the concrete erroring
input. -/
theorem absenceTimerExpiry_timer_slot_witness :
    (absenceTimerExpiry c2ErrCheck c2Student 0 0 7 8 c2Db c2Mgr).2.1 = c2Mgr :=
  (absenceTimerExpiry_timer_slot c2ErrCheck c2Student 0 0 7 8 c2Db c2Mgr).1 (by decide)

/-- C5 counterexample: person 10 has absent marks on the 3 days preceding
day 0 and no mark on day 0 (and nothing else); the claim says the streak
is 4, but the evaluator also counts the unmarked day -4 and returns 5. -/
theorem streak_three_preceding_absences_is_not_four :
    checkConsecutiveAbsences evDbA 10 0 ≠ 4 := by decide

/-- C5 (amended): with absent marks on the 3 days preceding `asOfDate` and
no other marks, the streak is 5 (the unmarked days `asOfDate` and
`asOfDate - 4` both count as absent); with day `asOfDate - 2` instead
carrying a present mark, the streak is 2. -/
theorem streak_example_values :
    checkConsecutiveAbsences evDbA 10 0 = 5 ∧ checkConsecutiveAbsences evDbB 10 0 = 2 := by
  decide

/-- C9: the consecutive-absence count is between 0 and the fixed 5-day
window length for every store, person and date. -/
theorem checkConsecutiveAbsences_le_five (db : Store) (sid : Nat) (today : Int) :
    0 ≤ checkConsecutiveAbsences db sid today ∧ checkConsecutiveAbsences db sid today ≤ 5 := by
  refine ⟨Nat.zero_le _, ?_⟩
  have h := streakLoop_le (queryWindow db sid today) 5 today 0
  simpa [checkConsecutiveAbsences] using h

/-!
## Bridging the evaluator's query window to per-day lookups
-/

theorem mem_insertByDateDesc {a m : AttendanceMark} {l : List AttendanceMark} :
    a ∈ insertByDateDesc m l ↔ a = m ∨ a ∈ l := by
  induction l with
  | nil => simp [insertByDateDesc]
  | cons r rs ih =>
    unfold insertByDateDesc
    by_cases h : r.date ≤ m.date
    · simp [h]
    · simp [h, ih]
      tauto

theorem mem_sortByDateDesc {a : AttendanceMark} {l : List AttendanceMark} :
    a ∈ sortByDateDesc l ↔ a ∈ l := by
  induction l with
  | nil => simp [sortByDateDesc]
  | cons r rs ih => simp [sortByDateDesc, mem_insertByDateDesc, ih]

theorem mem_queryWindow {r : AttendanceMark} {db : Store} {sid : Nat} {today : Int} :
    r ∈ queryWindow db sid today ↔
      r ∈ db.attendance ∧ r.studentId = sid ∧ today - 5 ≤ r.date := by
  simp [queryWindow, mem_sortByDateDesc, List.mem_filter]

/-- At most one attendance row per `(student_id, date)` — the invariant the
application-level read-then-check discipline maintains. -/
def uniqueDayMarks (db : Store) : Prop :=
  ∀ a ∈ db.attendance, ∀ b ∈ db.attendance,
    a.studentId = b.studentId → a.date = b.date → a = b

theorem queryWindow_find_none {db : Store} {sid : Nat} {today d : Int}
    (hd : today - 5 ≤ d)
    (h : (queryWindow db sid today).find? (fun r => r.date == d) = none) :
    db.attendance.any
      (fun r => r.studentId == sid && r.date == d && r.status == Status.present) = false := by
  rw [List.any_eq_false]
  intro r hr hp
  obtain ⟨⟨h1, h2⟩, h3⟩ : (r.studentId = sid ∧ r.date = d) ∧ r.status = Status.present := by
    simpa using hp
  rw [List.find?_eq_none] at h
  have hw : r ∈ queryWindow db sid today := mem_queryWindow.mpr ⟨hr, h1, by omega⟩
  exact h r hw (by simp [h2])

theorem queryWindow_find_absent {db : Store} {sid : Nat} {today d : Int}
    (hu : uniqueDayMarks db) {r : AttendanceMark}
    (h : (queryWindow db sid today).find? (fun x => x.date == d) = some r)
    (hs : r.status = Status.absent) :
    db.attendance.any
      (fun x => x.studentId == sid && x.date == d && x.status == Status.present) = false := by
  have hrw := mem_queryWindow.mp (List.mem_of_find?_eq_some h)
  have hrd : r.date = d := by simpa using List.find?_some h
  rw [List.any_eq_false]
  intro b hb hp
  obtain ⟨⟨h1, h2⟩, h3⟩ : (b.studentId = sid ∧ b.date = d) ∧ b.status = Status.present := by
    simpa using hp
  have hbr : b = r := hu b hb r hrw.1 (h1.trans hrw.2.1.symm) (h2.trans hrd.symm)
  rw [hbr, hs] at h3
  exact Status.noConfusion h3

theorem queryWindow_find_present {db : Store} {sid : Nat} {today d : Int}
    {r : AttendanceMark}
    (h : (queryWindow db sid today).find? (fun x => x.date == d) = some r)
    (hs : r.status = Status.present) :
    db.attendance.any
      (fun x => x.studentId == sid && x.date == d && x.status == Status.present) = true := by
  have hrw := mem_queryWindow.mp (List.mem_of_find?_eq_some h)
  have hrd : r.date = d := by simpa using List.find?_some h
  rw [List.any_eq_true]
  exact ⟨r, hrw.1, by simp [hrw.2.1, hrd, hs]⟩

/-- The evaluator's loop agrees with the spec's backward walk, provided the
store holds at most one mark per `(student, day)` and every walked day lies
inside the query's trailing window. -/
theorem streakLoop_eq_specWalk (db : Store) (sid : Nat) (today : Int)
    (hu : uniqueDayMarks db) :
    ∀ (fuel : Nat) (d : Int) (acc : Nat),
      (∀ i : Nat, i < fuel → today - 5 ≤ d - i) →
      streakLoop (queryWindow db sid today) d fuel acc =
        acc + specStreakWalk db sid d fuel := by
  intro fuel
  induction fuel with
  | zero => intro d acc _; simp [streakLoop, specStreakWalk]
  | succ n ih =>
    intro d acc hw
    have hd : today - 5 ≤ d := by simpa using hw 0 (Nat.succ_pos n)
    have hw' : ∀ i : Nat, i < n → today - 5 ≤ (d - 1) - i := by
      intro i hi
      have := hw (i + 1) (by omega)
      push_cast at this ⊢
      omega
    rw [streakLoop, specStreakWalk]
    cases h : (queryWindow db sid today).find? (fun r => r.date == d) with
    | none =>
      rw [queryWindow_find_none hd h]
      rw [ih (d - 1) (acc + 1) hw']
      simp
      omega
    | some r =>
      cases hs : r.status with
      | present =>
        rw [queryWindow_find_present h hs]
        simp [hs]
      | absent =>
        rw [queryWindow_find_absent hu h hs]
        rw [ih (d - 1) (acc + 1) hw']
        simp [hs]
        omega

def c4Db : Store :=
  ⟨[⟨7, "Q", 3⟩], [⟨1, 7, "Q", 3, -1, 0, Status.absent, true⟩,
    ⟨2, 7, "Q", 3, -2, 0, Status.present, false⟩], []⟩

/-- C4: for every store holding at most one mark per `(student, day)`, the
evaluator equals the spec's walk — count consecutive days backward from
`asOfDate` for at most 5 days, counting explicitly-absent and unmarked
days and stopping at a present mark; the evaluator performs no writes (it
is a function of the store returning only a count). -/
theorem checkConsecutiveAbsences_eq_specStreak (db : Store) (sid : Nat) (asOf : Int)
    (hu : uniqueDayMarks db) :
    checkConsecutiveAbsences db sid asOf = specStreak db sid asOf := by
  have h := streakLoop_eq_specWalk db sid asOf hu 5 asOf 0 (by intro i hi; omega)
  simpa [checkConsecutiveAbsences, specStreak] using h

/-- C4 witness: the refinement theorem applied at a concrete two-mark
store. -/
theorem checkConsecutiveAbsences_eq_specStreak_witness :
    checkConsecutiveAbsences c4Db 7 0 = specStreak c4Db 7 0 :=
  checkConsecutiveAbsences_eq_specStreak c4Db 7 0 (by unfold uniqueDayMarks; decide)

/-!
## C3: the expiry success path
-/

def c3Student : Student := ⟨11, "C", 4⟩

def c3Db : Store := ⟨[c3Student], [], []⟩

def c3Mgr : TimerManager := ⟨[(11, 0)], some 1, 2, []⟩

/-- C3: when every store operation succeeds, the expiry callback writes
nothing when a mark for `(s.id, today)` already exists; otherwise it
appends exactly one auto-marked absent mark for today and appends exactly
one pending notification carrying the streak count if and only if the
streak computed over the updated store is at least 3. -/
theorem absenceTimerExpiry_success (s : Student) (today : Int)
    (time markId notifId : Nat) (db : Store) (m : TimerManager)
    (hfk : db.students.any (fun x => x.id == s.id) = true)
    (hm : db.attendance.all (fun x => x.id != markId) = true)
    (hn : db.notifications.all (fun x => x.id != notifId) = true) :
    (db.attendance.any (fun x => x.studentId == s.id && x.date == today) = true →
      (absenceTimerExpiry noErrs s today time markId notifId db m).1 = db) ∧
    (db.attendance.any (fun x => x.studentId == s.id && x.date == today) = false →
      (absenceTimerExpiry noErrs s today time markId notifId db m).1.attendance =
        db.attendance ++ [absentMark markId s today time] ∧
      (3 ≤ checkConsecutiveAbsences
          { db with attendance := db.attendance ++ [absentMark markId s today time] }
          s.id today →
        (absenceTimerExpiry noErrs s today time markId notifId db m).1.notifications =
          db.notifications ++
            [consecutiveAbsenceNotification notifId s
              (checkConsecutiveAbsences
                { db with attendance := db.attendance ++ [absentMark markId s today time] }
                s.id today)]) ∧
      (checkConsecutiveAbsences
          { db with attendance := db.attendance ++ [absentMark markId s today time] }
          s.id today < 3 →
        (absenceTimerExpiry noErrs s today time markId notifId db m).1.notifications =
          db.notifications)) := by
  have hpk : db.attendance.any (fun x => x.id == markId) = false := by
    rw [List.any_eq_false]
    intro x hx
    have := List.all_eq_true.mp hm x hx
    simpa using this
  have hnpk : db.notifications.any (fun x => x.id == notifId) = false := by
    rw [List.any_eq_false]
    intro x hx
    have := List.all_eq_true.mp hn x hx
    simpa using this
  have hins : attendanceInsert db (absentMark markId s today time) =
      Except.ok { db with attendance := db.attendance ++ [absentMark markId s today time] } := by
    simp [attendanceInsert, absentMark, hpk, hfk]
  constructor
  · intro hex
    simp [absenceTimerExpiry, noErrs, hex]
  · intro hex
    by_cases hk : 3 ≤ checkConsecutiveAbsences
        { db with attendance := db.attendance ++ [absentMark markId s today time] } s.id today
    · have hnot : notificationInsert
          { db with attendance := db.attendance ++ [absentMark markId s today time] }
          (consecutiveAbsenceNotification notifId s
            (checkConsecutiveAbsences
              { db with attendance := db.attendance ++ [absentMark markId s today time] }
              s.id today)) =
          Except.ok { db with
            attendance := db.attendance ++ [absentMark markId s today time],
            notifications := db.notifications ++
              [consecutiveAbsenceNotification notifId s
                (checkConsecutiveAbsences
                  { db with attendance := db.attendance ++ [absentMark markId s today time] }
                  s.id today)] } := by
        simp [notificationInsert, consecutiveAbsenceNotification, hnpk, hfk]
      have hres : (absenceTimerExpiry noErrs s today time markId notifId db m).1 =
          { db with
            attendance := db.attendance ++ [absentMark markId s today time],
            notifications := db.notifications ++
              [consecutiveAbsenceNotification notifId s
                (checkConsecutiveAbsences
                  { db with attendance := db.attendance ++ [absentMark markId s today time] }
                  s.id today)] } := by
        simp [absenceTimerExpiry, noErrs, hex, hins, hk, hnot]
      refine ⟨by simp [hres], fun _ => by simp [hres], fun hlt => absurd hk (by omega)⟩
    · have hres : (absenceTimerExpiry noErrs s today time markId notifId db m).1 =
          { db with attendance := db.attendance ++ [absentMark markId s today time] } := by
        simp [absenceTimerExpiry, noErrs, hex, hins, hk]
      refine ⟨by simp [hres], fun h3 => absurd h3 hk, fun _ => by simp [hres]⟩

/-- C3 witness: the success-path theorem applied at a one-student store
with no marks; the streak over the updated store is 5, so a notification
is appended. -/
theorem absenceTimerExpiry_success_witness :
    (absenceTimerExpiry noErrs c3Student 0 540 7 8 c3Db c3Mgr).1.attendance =
      c3Db.attendance ++ [absentMark 7 c3Student 0 540] :=
  ((absenceTimerExpiry_success c3Student 0 540 7 8 c3Db c3Mgr
      (by decide) (by decide) (by decide)).2 (by decide)).1

/-!
## C6: the day-cycle tick
-/

theorem setEntry_of_not_mem (k v : Nat) :
    ∀ (l : List (Nat × Nat)), (∀ e ∈ l, e.1 ≠ k) → setEntry l k v = l ++ [(k, v)] := by
  intro l
  induction l with
  | nil => intro _; rfl
  | cons e es ih =>
    intro h
    unfold setEntry
    have hek : e.1 ≠ k := h e (List.mem_cons_self e es)
    simp only [beq_iff_eq, hek, if_false, List.cons_append, List.cons.injEq, true_and]
    exact ih (fun x hx => h x (List.mem_cons_of_mem e hx))

theorem find_key_none (k : Nat) (l : List (Nat × Nat)) (h : ∀ e ∈ l, e.1 ≠ k) :
    l.find? (fun e => e.1 == k) = none := by
  rw [List.find?_eq_none]
  intro e he
  simpa using h e he

theorem startAbsenceTimer_cancelled_mono (m : TimerManager) (s : Student) (x : Nat)
    (hx : x ∈ m.cancelled) : x ∈ (startAbsenceTimer m s).cancelled := by
  unfold startAbsenceTimer
  cases m.timers.find? (fun e => e.1 == s.id) <;> simp [hx]

theorem foldl_startAbsenceTimer_cancelled_mono :
    ∀ (ss : List Student) (m : TimerManager) (x : Nat), x ∈ m.cancelled →
      x ∈ (ss.foldl startAbsenceTimer m).cancelled := by
  intro ss
  induction ss with
  | nil => intro m x hx; exact hx
  | cons s rest ih =>
    intro m x hx
    exact ih (startAbsenceTimer m s) x (startAbsenceTimer_cancelled_mono m s x hx)

theorem foldl_startAbsenceTimer_keys :
    ∀ (ss : List Student) (m : TimerManager),
      (ss.map Student.id).Nodup →
      (∀ s ∈ ss, ∀ e ∈ m.timers, e.1 ≠ s.id) →
      (ss.foldl startAbsenceTimer m).timers.map Prod.fst =
        m.timers.map Prod.fst ++ ss.map Student.id := by
  intro ss
  induction ss with
  | nil => intro m _ _; simp
  | cons s rest ih =>
    intro m hnd habs
    have hfind : m.timers.find? (fun e => e.1 == s.id) = none :=
      find_key_none s.id m.timers (fun e he => habs s (List.mem_cons_self s rest) e he)
    have hset : setEntry m.timers s.id m.nextHandle = m.timers ++ [(s.id, m.nextHandle)] :=
      setEntry_of_not_mem s.id m.nextHandle m.timers
        (fun e he => habs s (List.mem_cons_self s rest) e he)
    have hstep : startAbsenceTimer m s =
        { m with timers := m.timers ++ [(s.id, m.nextHandle)],
                 nextHandle := m.nextHandle + 1 } := by
      unfold startAbsenceTimer
      rw [hfind]
      simp [hset]
    have hnd' : (rest.map Student.id).Nodup := by
      simpa using hnd.of_cons
    have hsid : s.id ∉ rest.map Student.id := by
      have := hnd
      simp only [List.map_cons, List.nodup_cons] at this
      exact this.1
    have habs' : ∀ t ∈ rest, ∀ e ∈ (startAbsenceTimer m s).timers, e.1 ≠ t.id := by
      intro t ht e he
      rw [hstep] at he
      simp only [List.mem_append, List.mem_singleton] at he
      cases he with
      | inl h0 => exact habs t (List.mem_cons_of_mem s ht) e h0
      | inr h0 =>
        have he1 : e.1 = s.id := by rw [h0]
        rw [he1]
        intro hcontra
        exact hsid (by rw [hcontra]; exact List.mem_map_of_mem Student.id ht)
    calc ((s :: rest).foldl startAbsenceTimer m).timers.map Prod.fst
        = ((rest.foldl startAbsenceTimer (startAbsenceTimer m s)).timers.map Prod.fst) := rfl
      _ = (startAbsenceTimer m s).timers.map Prod.fst ++ rest.map Student.id :=
          ih (startAbsenceTimer m s) hnd' habs'
      _ = m.timers.map Prod.fst ++ (s :: rest).map Student.id := by
          rw [hstep]
          simp

theorem clearAllTimers_timers (m : TimerManager) : (clearAllTimers m).timers = [] := by
  unfold clearAllTimers
  cases m.dayTimer <;> rfl

theorem clearAllTimers_mem_cancelled (m : TimerManager) (e : Nat × Nat)
    (he : e ∈ m.timers) : e.2 ∈ (clearAllTimers m).cancelled := by
  unfold clearAllTimers
  have : e.2 ∈ m.timers.map Prod.snd := List.mem_map_of_mem Prod.snd he
  cases m.dayTimer <;> simp [this]

/-- C6: after a day-cycle tick over a roster with `N` distinct people,
every previously-live per-person timer handle has been cancelled and the
live set holds exactly `N` timers, keyed exactly (and without duplicates)
by the roster's ids. -/
theorem startNewDay_tick (db : Store) (m : TimerManager)
    (hnd : (db.students.map Student.id).Nodup) :
    (startNewDay db m).timers.map Prod.fst = db.students.map Student.id ∧
    (startNewDay db m).timers.length = db.students.length ∧
    (∀ e ∈ m.timers, e.2 ∈ (startNewDay db m).cancelled) ∧
    ((startNewDay db m).timers.map Prod.fst).Nodup := by
  have habs : ∀ s ∈ db.students, ∀ e ∈ (clearAllTimers m).timers, e.1 ≠ s.id := by
    intro s _ e he
    rw [clearAllTimers_timers] at he
    exact absurd he (List.not_mem_nil e)
  have hkeys : (db.students.foldl startAbsenceTimer (clearAllTimers m)).timers.map Prod.fst =
      db.students.map Student.id := by
    have := foldl_startAbsenceTimer_keys db.students (clearAllTimers m) hnd habs
    rwa [clearAllTimers_timers] at this
  have hkeys' : (startNewDay db m).timers.map Prod.fst = db.students.map Student.id := by
    unfold startNewDay
    simpa using hkeys
  refine ⟨hkeys', ?_, ?_, ?_⟩
  · have := congrArg List.length hkeys'
    simpa using this
  · intro e he
    have h1 : e.2 ∈ (clearAllTimers m).cancelled := clearAllTimers_mem_cancelled m e he
    have h2 : e.2 ∈ (db.students.foldl startAbsenceTimer (clearAllTimers m)).cancelled :=
      foldl_startAbsenceTimer_cancelled_mono db.students (clearAllTimers m) e.2 h1
    unfold startNewDay
    simpa using h2
  · rw [hkeys']
    exact hnd

def c6Db : Store := ⟨[⟨1, "A", 1⟩, ⟨2, "B", 2⟩, ⟨3, "C", 3⟩], [], []⟩

def c6Mgr : TimerManager := ⟨[(1, 0), (9, 1)], some 2, 3, []⟩

/-- C6 witness: the tick theorem applied to a three-person roster over a
manager with two stale timers. -/
theorem startNewDay_tick_witness :
    (startNewDay c6Db c6Mgr).timers.map Prod.fst = c6Db.students.map Student.id ∧
    (startNewDay c6Db c6Mgr).timers.length = c6Db.students.length ∧
    (∀ e ∈ c6Mgr.timers, e.2 ∈ (startNewDay c6Db c6Mgr).cancelled) ∧
    ((startNewDay c6Db c6Mgr).timers.map Prod.fst).Nodup :=
  startNewDay_tick c6Db c6Mgr (by decide)

/-!
## C7: the check-in handler
-/

theorem find_key_of_mem_nodup :
    ∀ (l : List (Nat × Nat)), (l.map Prod.fst).Nodup →
      ∀ (k v : Nat), (k, v) ∈ l → l.find? (fun e => e.1 == k) = some (k, v) := by
  intro l
  induction l with
  | nil => intro _ k v hv; exact absurd hv (List.not_mem_nil _)
  | cons e es ih =>
    intro hnd k v hv
    have hnd' : (es.map Prod.fst).Nodup := by
      simpa using hnd.of_cons
    have hhead : e.1 ∉ es.map Prod.fst := by
      simp only [List.map_cons, List.nodup_cons] at hnd
      exact hnd.1
    by_cases hek : e.1 = k
    · have hev : e = (k, v) := by
        cases List.mem_cons.mp hv with
        | inl h0 => exact h0.symm
        | inr h0 =>
          exfalso
          apply hhead
          rw [hek]
          exact List.mem_map_of_mem Prod.fst h0
      rw [List.find?_cons_of_pos _ (by simp [hek]), hev]
    · have hv' : (k, v) ∈ es := by
        cases List.mem_cons.mp hv with
        | inl h0 => exact absurd (by rw [← h0]) hek
        | inr h0 => exact h0
      rw [List.find?_cons_of_neg _ (by simp [hek])]
      exact ih hnd' k v hv'

theorem clearStudentTimer_no_key (m : TimerManager) (sid : Nat) :
    ∀ e ∈ (clearStudentTimer m sid).timers, e.1 ≠ sid := by
  intro e he
  unfold clearStudentTimer at he
  cases hf : m.timers.find? (fun x => x.1 == sid) with
  | none =>
    rw [hf] at he
    rw [List.find?_eq_none] at hf
    simpa using hf e he
  | some x =>
    rw [hf] at he
    simp only [List.mem_filter] at he
    simpa using he.2

theorem clearStudentTimer_cancels (m : TimerManager) (sid h : Nat)
    (hnd : (m.timers.map Prod.fst).Nodup) (hmem : (sid, h) ∈ m.timers) :
    h ∈ (clearStudentTimer m sid).cancelled := by
  have hf := find_key_of_mem_nodup m.timers hnd sid h hmem
  unfold clearStudentTimer
  rw [hf]
  simp

def c7Student : Student := ⟨10, "A", 1⟩

def c7Db : Store := ⟨[c7Student], [], []⟩

def c7Mgr : TimerManager := ⟨[(10, 3)], some 4, 5, []⟩

/-- C7: the check-in handler.  With no student carrying the badge it
returns NotFound and changes nothing.  With a student found and exactly
one mark for `(student, today)` in the store it returns AlreadyMarked with
the store untouched — exactly one mark remains.  With a student found, no
mark for today, and a fresh mark id, it appends exactly one present,
not-auto-marked mark, leaves no timer keyed by the student, and cancels
the student's pending timer handle. -/
theorem recordAttendance_cases (db : Store) (m : TimerManager) (cardId : Nat)
    (today : Int) (markId time : Nat) (hkeys : (m.timers.map Prod.fst).Nodup) :
    (db.students.find? (fun s => s.cardId == cardId) = none →
      recordAttendance db m cardId today markId time = (RecordResult.notFound, db, m)) ∧
    (∀ s : Student, db.students.find? (fun x => x.cardId == cardId) = some s →
      (db.attendance.filter (fun r => r.studentId == s.id && r.date == today)).length = 1 →
      recordAttendance db m cardId today markId time =
          (RecordResult.alreadyMarked s.name, db, m) ∧
      ((recordAttendance db m cardId today markId time).2.1.attendance.filter
          (fun r => r.studentId == s.id && r.date == today)).length = 1) ∧
    (∀ s : Student, db.students.find? (fun x => x.cardId == cardId) = some s →
      db.attendance.any (fun r => r.studentId == s.id && r.date == today) = false →
      db.attendance.all (fun r => r.id != markId) = true →
      (recordAttendance db m cardId today markId time).1 = RecordResult.recorded s ∧
      (recordAttendance db m cardId today markId time).2.1.attendance =
        db.attendance ++
          [⟨markId, s.id, s.name, s.cardId, today, time, Status.present, false⟩] ∧
      (∀ e ∈ (recordAttendance db m cardId today markId time).2.2.timers, e.1 ≠ s.id) ∧
      (∀ h : Nat, (s.id, h) ∈ m.timers →
        h ∈ (recordAttendance db m cardId today markId time).2.2.cancelled)) := by
  refine ⟨?_, ?_, ?_⟩
  · intro hf
    simp [recordAttendance, hf]
  · intro s hs hlen
    have hany : db.attendance.any (fun r => r.studentId == s.id && r.date == today) = true := by
      cases hany : db.attendance.any (fun r => r.studentId == s.id && r.date == today) with
      | false =>
        exfalso
        rw [List.any_eq_false] at hany
        have : db.attendance.filter (fun r => r.studentId == s.id && r.date == today) = [] :=
          List.filter_eq_nil_iff.mpr hany
        rw [this] at hlen
        exact absurd hlen (by simp)
      | true => rfl
    have hres : recordAttendance db m cardId today markId time =
        (RecordResult.alreadyMarked s.name, db, m) := by
      simp [recordAttendance, hs, hany]
    exact ⟨hres, by rw [hres]; exact hlen⟩
  · intro s hs hnone hfresh
    have hsmem : s ∈ db.students := List.mem_of_find?_eq_some hs
    have hpk : db.attendance.any (fun x => x.id == markId) = false := by
      rw [List.any_eq_false]
      intro x hx
      have := List.all_eq_true.mp hfresh x hx
      simpa using this
    have hfk : db.students.any (fun x => x.id == s.id) = true := by
      rw [List.any_eq_true]
      exact ⟨s, hsmem, by simp⟩
    have hins : attendanceInsert db
        ⟨markId, s.id, s.name, s.cardId, today, time, Status.present, false⟩ =
        Except.ok { db with attendance := db.attendance ++
          [⟨markId, s.id, s.name, s.cardId, today, time, Status.present, false⟩] } := by
      simp [attendanceInsert, hpk, hfk]
    have hres : recordAttendance db m cardId today markId time =
        (RecordResult.recorded s,
          { db with attendance := db.attendance ++
            [⟨markId, s.id, s.name, s.cardId, today, time, Status.present, false⟩] },
          clearStudentTimer m s.id) := by
      simp [recordAttendance, hs, hnone, hins]
    refine ⟨by rw [hres], by rw [hres], ?_, ?_⟩
    · rw [hres]
      exact clearStudentTimer_no_key m s.id
    · intro h hmem
      rw [hres]
      exact clearStudentTimer_cancels m s.id h hkeys hmem

/-- C7 witness: the check-in theorem applied at a one-student roster with
a live timer and an empty attendance table. -/
theorem recordAttendance_cases_witness :
    (recordAttendance c7Db c7Mgr 1 0 7 540).1 = RecordResult.recorded c7Student :=
  ((recordAttendance_cases c7Db c7Mgr 1 0 7 540 (by decide)).2.2 c7Student
    (by decide) (by decide) (by decide)).1

/-!
## C8: roster deletion
-/

theorem attendanceInsert_attendance (db : Store) (r : AttendanceMark) (x : Store)
    (h : attendanceInsert db r = Except.ok x) : x.attendance = db.attendance ++ [r] := by
  unfold attendanceInsert at h
  split at h
  · exact absurd h (by simp)
  · split at h
    · exact absurd h (by simp)
    · cases h
      rfl

theorem notificationInsert_attendance (db : Store) (n : Notification) (x : Store)
    (h : notificationInsert db n = Except.ok x) : x.attendance = db.attendance := by
  unfold notificationInsert at h
  split at h
  · exact absurd h (by simp)
  · split at h
    · exact absurd h (by simp)
    · cases h
      rfl

/-- Whatever succeeds or fails inside the expiry callback, the attendance
table either stays as it was or gains exactly the callback's own absent
mark (whose `student_id` is `s.id`). -/
theorem absenceTimerExpiry_attendance_shape (errs : ExpiryErrs) (s : Student)
    (today : Int) (time markId notifId : Nat) (db : Store) (m : TimerManager) :
    (absenceTimerExpiry errs s today time markId notifId db m).1.attendance = db.attendance ∨
    (absenceTimerExpiry errs s today time markId notifId db m).1.attendance =
      db.attendance ++ [absentMark markId s today time] := by
  by_cases hc : errs.eCheck = true
  · left
    simp [absenceTimerExpiry, hc]
  · by_cases hex : (db.attendance.any fun r => r.studentId == s.id && r.date == today) = true
    · left
      simp [absenceTimerExpiry, hc, hex]
    · by_cases hi : errs.eInsert = true
      · left
        simp [absenceTimerExpiry, hc, hex, hi]
      · cases hins : attendanceInsert db (absentMark markId s today time) with
        | error e =>
          left
          simp [absenceTimerExpiry, hc, hex, hi, hins]
        | ok db1 =>
          have h1 := attendanceInsert_attendance _ _ _ hins
          by_cases hst : errs.eStreak = true
          · right
            simp [absenceTimerExpiry, hc, hex, hi, hins, hst, h1]
          · by_cases hk : 3 ≤ checkConsecutiveAbsences db1 s.id today
            · by_cases hn : errs.eNotif = true
              · right
                simp [absenceTimerExpiry, hc, hex, hi, hins, hst, hk, hn, h1]
              · cases hnot : notificationInsert db1
                    (consecutiveAbsenceNotification notifId s
                      (checkConsecutiveAbsences db1 s.id today)) with
                | error e2 =>
                  right
                  simp [absenceTimerExpiry, hc, hex, hi, hins, hst, hk, hn, hnot, h1]
                | ok db3 =>
                  have h2 := notificationInsert_attendance _ _ _ hnot
                  right
                  simp [absenceTimerExpiry, hc, hex, hi, hins, hst, hk, hn, hnot, h2, h1]
            · right
              simp [absenceTimerExpiry, hc, hex, hi, hins, hst, hk, h1]

/-- The expiry callback for a student other than `sid` never changes
`sid`'s attendance marks. -/
theorem absenceTimerExpiry_other_marks (errs : ExpiryErrs) (s : Student) (sid : Nat)
    (hne : s.id ≠ sid) (today : Int) (time markId notifId : Nat)
    (db : Store) (m : TimerManager) :
    (absenceTimerExpiry errs s today time markId notifId db m).1.attendance.filter
      (fun a => a.studentId == sid) =
      db.attendance.filter (fun a => a.studentId == sid) := by
  cases absenceTimerExpiry_attendance_shape errs s today time markId notifId db m with
  | inl h => rw [h]
  | inr h =>
    rw [h, List.filter_append]
    simp [absentMark, hne]

def c8Student : Student := ⟨10, "A", 1⟩

def c8Db : Store :=
  ⟨[c8Student, ⟨20, "B", 2⟩],
    [⟨1, 10, "A", 1, 0, 540, Status.absent, true⟩],
    [⟨5, 10, "A", "consecutive_absence", "msg", 3, true⟩]⟩

def c8Mgr : TimerManager := ⟨[(10, 3), (20, 4)], some 5, 6, []⟩

/-- C8: deleting a student returns NotFound (leaving everything unchanged)
when no such student exists; otherwise it reports success, removes the
student, cascades away all of the student's attendance marks and
notifications, leaves no timer keyed by the student, cancels the student's
pending timer handle, and any timer still live afterwards belongs to a
different student — and firing such a timer's expiry callback can never
change the removed student's attendance marks, no matter the store state,
clock value or failure pattern at that later time. -/
theorem deleteStudent_cases (db : Store) (m : TimerManager) (sid : Nat)
    (hkeys : (m.timers.map Prod.fst).Nodup) :
    (db.students.all (fun s => s.id != sid) = true →
      deleteStudent db m sid = (DeleteResult.notFound, db, m)) ∧
    (db.students.any (fun s => s.id == sid) = true →
      (deleteStudent db m sid).1 = DeleteResult.deleted ∧
      (∀ s ∈ (deleteStudent db m sid).2.1.students, s.id ≠ sid) ∧
      (∀ a ∈ (deleteStudent db m sid).2.1.attendance, a.studentId ≠ sid) ∧
      (∀ n ∈ (deleteStudent db m sid).2.1.notifications, n.studentId ≠ sid) ∧
      (∀ e ∈ (deleteStudent db m sid).2.2.timers, e.1 ≠ sid) ∧
      (∀ h : Nat, (sid, h) ∈ m.timers → h ∈ (deleteStudent db m sid).2.2.cancelled) ∧
      (∀ (s : Student) (h2 : Nat), (s.id, h2) ∈ (deleteStudent db m sid).2.2.timers →
        ∀ (errs : ExpiryErrs) (today : Int) (time markId notifId : Nat)
          (db2 : Store) (m2 : TimerManager),
          (absenceTimerExpiry errs s today time markId notifId db2 m2).1.attendance.filter
              (fun a => a.studentId == sid) =
            db2.attendance.filter (fun a => a.studentId == sid))) := by
  constructor
  · intro hall
    have hnone : db.students.any (fun s => s.id == sid) = false := by
      rw [List.any_eq_false]
      intro x hx
      have := List.all_eq_true.mp hall x hx
      simpa using this
    simp [deleteStudent, hnone]
  · intro hany
    have hres : deleteStudent db m sid =
        (DeleteResult.deleted,
          { students := db.students.filter (fun s => s.id != sid),
            attendance := db.attendance.filter (fun r => r.studentId != sid),
            notifications := db.notifications.filter (fun n => n.studentId != sid) },
          clearStudentTimer m sid) := by
      simp [deleteStudent, hany]
    refine ⟨by rw [hres], ?_, ?_, ?_, ?_, ?_, ?_⟩
    · rw [hres]
      intro s hs
      have := (List.mem_filter.mp hs).2
      simpa using this
    · rw [hres]
      intro a ha
      have := (List.mem_filter.mp ha).2
      simpa using this
    · rw [hres]
      intro n hn
      have := (List.mem_filter.mp hn).2
      simpa using this
    · rw [hres]
      exact clearStudentTimer_no_key m sid
    · intro h hmem
      rw [hres]
      exact clearStudentTimer_cancels m sid h hkeys hmem
    · intro s h2 hmem errs today time markId notifId db2 m2
      rw [hres] at hmem
      have hne : s.id ≠ sid := clearStudentTimer_no_key m sid (s.id, h2) hmem
      exact absenceTimerExpiry_other_marks errs s sid hne today time markId notifId db2 m2

/-- C8 witness: the deletion theorem applied at a two-student store where
student 10 has a mark, a notification and a live timer. -/
theorem deleteStudent_cases_witness :
    (deleteStudent c8Db c8Mgr 10).1 = DeleteResult.deleted :=
  ((deleteStudent_cases c8Db c8Mgr 10 (by decide)).2 (by decide)).1

/-!
## C10: report generation
-/

def c10Db : Store := ⟨[], [], []⟩

/-- C10: when no report for today exists yet, report generation produces a
report whose total is the roster size and whose present count is the count
of today's present marks; `attendance_rate` is 0 when the roster is empty
and `Math.round(present / total * 100)` otherwise — the division is never
taken with a zero denominator. -/
theorem generateReport_rate (db : Store) (reports : List DailyReport) (today : Int)
    (rid : Nat) (h : reports.all (fun r => r.date != today) = true) :
    ∃ rep : DailyReport,
      (generateReport db reports today rid).1 = ReportResult.generated rep ∧
      rep.totalStudents = db.students.length ∧
      rep.presentCount = (db.attendance.filter
        (fun a => a.date == today && a.status == Status.present)).length ∧
      (rep.totalStudents = 0 → rep.attendanceRate = 0) ∧
      (0 < rep.totalStudents →
        rep.attendanceRate =
          mathRound ((rep.presentCount : ℚ) / (rep.totalStudents : ℚ) * 100)) := by
  have hnone : reports.any (fun r => r.date == today) = false := by
    rw [List.any_eq_false]
    intro x hx
    have := List.all_eq_true.mp h x hx
    simpa using this
  have hres : (generateReport db reports today rid).1 = ReportResult.generated
      ⟨rid, today, (reports.foldl (fun acc r => max acc r.dayNumber) 0) + 1,
        db.students.length,
        (db.attendance.filter (fun a => a.date == today && a.status == Status.present)).length,
        (db.attendance.filter (fun a => a.date == today && a.status == Status.absent)).length,
        if 0 < db.students.length then
          mathRound
            (((db.attendance.filter
                (fun a => a.date == today && a.status == Status.present)).length : ℚ) /
              (db.students.length : ℚ) * 100)
        else 0⟩ := by
    simp [generateReport, hnone]
  refine ⟨_, hres, rfl, rfl, ?_, ?_⟩
  · intro h0
    have h0x : db.students.length = 0 := h0
    have hneg : ¬ 0 < db.students.length := by omega
    simp [hneg]
  · intro hpos
    have hpx : 0 < db.students.length := hpos
    simp [hpx]

/-- C10 witness: the report theorem applied at an empty roster — the rate
is forced through the zero-roster guard. -/
theorem generateReport_rate_witness :
    ∃ rep : DailyReport,
      (generateReport c10Db [] 0 1).1 = ReportResult.generated rep ∧
      rep.totalStudents = c10Db.students.length ∧
      rep.presentCount = (c10Db.attendance.filter
        (fun a => a.date == (0 : Int) && a.status == Status.present)).length ∧
      (rep.totalStudents = 0 → rep.attendanceRate = 0) ∧
      (0 < rep.totalStudents →
        rep.attendanceRate =
          mathRound ((rep.presentCount : ℚ) / (rep.totalStudents : ℚ) * 100)) :=
  generateReport_rate c10Db [] 0 1 (by decide)
